import Mathlib

/-!
Verification development for the batheart daemon (src/cmd/root.go).

The daemon polls the battery level, decides whether the hardware
conservation-mode switch should be on, and adapts its polling interval.
All definitions below are shallow embeddings of the Go source: `uint`
arithmetic is modelled as natural numbers reduced modulo 2^64, the
inline body of the poll loop in runDaemon becomes the pure function
pollTick, the event-multiplexing loop becomes daemonLoop over a list of
inputs, and the config parsing paths (startup with handleConfigError,
hot reload with the always-true handler) become parseConfigStartup and
parseConfigReload, with log.Fatalf recorded in the fatalLogged flag.
-/

namespace Batheart

/-- Modulus of Go's uint type on a 64-bit platform. -/
def uintMod : Nat := 2 ^ 64

/-- Wrapping subtraction on uint values, as Go computes Threshold-1. -/
def usub (a b : Nat) : Nat := (a % uintMod + (uintMod - b % uintMod)) % uintMod

/-- Wrapping addition on uint values, as Go computes Threshold+1. -/
def uadd (a b : Nat) : Nat := (a + b) % uintMod

/-- The config struct of root.go: a single uint field Threshold. -/
structure config where
  Threshold : Nat
deriving Repr, DecidableEq

/-- Embedding of inThresholdRange (root.go lines 83-85):
capacity > cfg.Threshold-1 && capacity < cfg.Threshold+1 in uint arithmetic. -/
def inThresholdRange (capacity : Nat) (cfg : config) : Bool :=
  decide (usub cfg.Threshold 1 < capacity) && decide (capacity < uadd cfg.Threshold 1)

/-- Payload written by setConservationMode: the byte string sent to the
conservation-mode control file. -/
def setConservationMode (b : Bool) : String := if b then "1" else "0"

/-- One nanosecond, the base unit of Go's time.Duration. -/
def nanosecond : Nat := 1

/-- One second in nanoseconds. -/
def second : Nat := 1000000000

/-- One minute in nanoseconds. -/
def minute : Nat := 60 * second

/-- Loop-carried state of runDaemon: prevCapacity and the current ticker
interval (in nanoseconds). -/
structure PollState where
  prevCapacity : Nat
  interval : Nat
deriving Repr, DecidableEq

/-- Observable outcome of one timer tick of runDaemon: the optional
conservation-mode write, the new loop state, whether the cycle was
skipped because capacity equalled prevCapacity, and which error logs
were emitted. -/
structure TickResult where
  write : Option Bool
  state : PollState
  skipped : Bool
  loggedReadError : Bool
  loggedChargingError : Bool
deriving Repr, DecidableEq

/-- Embedding of the ticker branch of runDaemon (root.go lines 119-147).
capRead is the result of battery.Level (none when it errors);
chargingVal and chargingErr are the value and error flag returned by
battery.IsCharging. On a read error the cycle is aborted; on
capacity = prevCapacity the cycle is skipped; otherwise prevCapacity is
updated and the three-way decision runs, resetting the ticker and
invoking setConservationMode. -/
def pollTick (cfg : config) (s : PollState) (capRead : Option Nat)
    (chargingVal chargingErr : Bool) : TickResult :=
  match capRead with
  | none =>
    { write := none, state := s, skipped := false,
      loggedReadError := true, loggedChargingError := false }
  | some capacity =>
    if capacity = s.prevCapacity then
      { write := none, state := s, skipped := true,
        loggedReadError := false, loggedChargingError := false }
    else
      if inThresholdRange capacity cfg && chargingVal then
        { write := some true,
          state := { prevCapacity := capacity, interval := second },
          skipped := false, loggedReadError := false,
          loggedChargingError := chargingErr }
      else if !chargingVal then
        { write := some false,
          state := { prevCapacity := capacity, interval := 5 * minute },
          skipped := false, loggedReadError := false,
          loggedChargingError := chargingErr }
      else
        { write := some true,
          state := { prevCapacity := capacity, interval := 5 * minute },
          skipped := false, loggedReadError := false,
          loggedChargingError := chargingErr }

/-- Observable events emitted by runDaemon, in program order. -/
inductive Event where
  | watchErrorLog
  | enableLog
  | readErrorLog
  | chargingErrorLog
  | conservationWrite (payload : String)
  | shutdownLog
  | tickerStop
deriving Repr, DecidableEq

/-- One input serviced by the select statement of runDaemon: either a
termination signal or a timer tick carrying the battery readings. -/
inductive LoopInput where
  | sig
  | timer (capRead : Option Nat) (chargingVal chargingErr : Bool)
deriving Repr, DecidableEq

/-- Events emitted during one timer tick, derived from its TickResult. -/
def tickEvents (r : TickResult) : List Event :=
  (if r.loggedReadError then [Event.readErrorLog] else []) ++
  (if r.loggedChargingError then [Event.chargingErrorLog] else []) ++
  (match r.write with
   | some b => [Event.conservationWrite (setConservationMode b)]
   | none => [])

/-- The select loop of runDaemon: consumes inputs in order; a signal
exits the loop, running the deferred shutdown log and then the deferred
ticker.Stop (deferred calls run last-registered-first). -/
def daemonLoop (cfg : config) : PollState → List LoopInput → List Event
  | _, [] => []
  | _, LoopInput.sig :: _ => [Event.shutdownLog, Event.tickerStop]
  | s, LoopInput.timer cap chV chE :: rest =>
    tickEvents (pollTick cfg s cap chV chE) ++
      daemonLoop cfg (pollTick cfg s cap chV chE).state rest

/-- Embedding of runDaemon (root.go lines 87-148): if registering the
config watch fails, the error is logged and the function returns before
the ticker or the deferred cleanup exist; otherwise the startup log is
emitted and the loop runs from prevCapacity = 0 with a one-minute
interval. -/
def runDaemonEvents (watchFails : Bool) (cfg : config)
    (inputs : List LoopInput) : List Event :=
  if watchFails then [Event.watchErrorLog]
  else Event.enableLog :: daemonLoop cfg { prevCapacity := 0, interval := minute } inputs

/-- Abstraction of the global koanf store k: empty after koanf.New,
holding a threshold after a successful file load, holding the default
config after loadDefaultConfig, or holding a value that fails to
unmarshal into the uint Threshold field. -/
inductive Store where
  | empty
  | fromFile (threshold : Nat)
  | fromDefault
  | typeMismatch
deriving Repr, DecidableEq

/-- Behaviour of k.Unmarshal into the config struct: an empty store
yields the zero-valued config, a loaded store yields its threshold, the
default store yields Threshold = 80, and a type mismatch errors. -/
def unmarshalStore : Store → Option config
  | Store.empty => some { Threshold := 0 }
  | Store.fromFile t => some { Threshold := t }
  | Store.fromDefault => some { Threshold := 80 }
  | Store.typeMismatch => none

/-- Result of k.Load on the file provider: success with the parsed
store, a not-exist error, or any other error (unreadable or malformed
file). -/
inductive LoadResult where
  | ok (st : Store)
  | errNotExist
  | errOther
deriving Repr, DecidableEq

/-- Outcome of a parseConfig call: whether logCfgIssue (log.Fatalf,
which terminates the process) was invoked, and the pointer parseConfig
would return (none models a nil pointer). -/
structure ParseResult where
  fatalLogged : Bool
  ret : Option config
deriving Repr, DecidableEq

/-- Embedding of parseConfig with handleConfigError (root.go lines
170-238), as called at startup: a non-not-exist load error is fatal; a
not-exist error runs acquireConfig (load defaults into k, create the
config dir and file, each failure fatal); then k is unmarshalled, an
unmarshal error being fatal. The ret field is the value the Go code
would return if execution continued past log.Fatalf. -/
def parseConfigStartup (loadRes : LoadResult)
    (mkdirOk marshalOk writeOk : Bool) : ParseResult :=
  match loadRes with
  | LoadResult.ok st =>
    match unmarshalStore st with
    | none => { fatalLogged := true, ret := none }
    | some c => { fatalLogged := false, ret := some c }
  | LoadResult.errOther => { fatalLogged := true, ret := none }
  | LoadResult.errNotExist =>
    if !mkdirOk then { fatalLogged := true, ret := none }
    else if !marshalOk then { fatalLogged := true, ret := none }
    else if !writeOk then { fatalLogged := true, ret := none }
    else
      match unmarshalStore Store.fromDefault with
      | none => { fatalLogged := true, ret := none }
      | some c => { fatalLogged := false, ret := some c }

/-- Embedding of parseConfig as called from the config-watch callback
(root.go lines 96-99), whose error handler always returns true: any
load error is discarded, leaving the freshly created k empty, and then
k is unmarshalled, an unmarshal error being fatal. -/
def parseConfigReload (loadRes : LoadResult) : ParseResult :=
  match unmarshalStore (match loadRes with
    | LoadResult.ok st => st
    | LoadResult.errNotExist => Store.empty
    | LoadResult.errOther => Store.empty) with
  | none => { fatalLogged := true, ret := none }
  | some c => { fatalLogged := false, ret := some c }

/-- Outcome of the config-watch callback for the daemon's config:
kept (watch delivered an error, old config kept), exited (logCfgIssue
terminated the process), or replaced (cfg reassigned to the pointer
parseConfig returned). -/
inductive ReloadOutcome where
  | kept (c : config)
  | exited
  | replaced (newCfg : Option config)
deriving Repr, DecidableEq

/-- Embedding of the Watch callback in runDaemon (root.go lines 91-100):
on a watch error it logs and returns, keeping the old config; otherwise
it resets k and reassigns cfg to the result of parseConfigReload. -/
def reloadCallback (old : config) (watchErr : Bool)
    (loadRes : LoadResult) : ReloadOutcome :=
  if watchErr then ReloadOutcome.kept old
  else
    if (parseConfigReload loadRes).fatalLogged then ReloadOutcome.exited
    else ReloadOutcome.replaced (parseConfigReload loadRes).ret

/-- Numeric value of the uint modulus. -/
lemma uintMod_eq : uintMod = 18446744073709551616 := by norm_num [uintMod]

/-- For a threshold strictly between the wraparound points, the range
check is an exact match on uint capacities. -/
lemma inThresholdRange_iff (cfg : config) (c : Nat) (h1 : 1 ≤ cfg.Threshold)
    (h2 : cfg.Threshold ≤ uintMod - 2) (hc : c < uintMod) :
    inThresholdRange c cfg = true ↔ c = cfg.Threshold := by
  rw [uintMod_eq] at h2 hc
  simp only [inThresholdRange, usub, uadd, Bool.and_eq_true, decide_eq_true_eq, uintMod_eq]
  omega

/-- For any uint threshold, a uint capacity different from the threshold
is never in range: at the wraparound points the check is simply false. -/
lemma inThresholdRange_false_of_ne (cfg : config) (c : Nat)
    (ht : cfg.Threshold < uintMod) (hc : c < uintMod) (hne : c ≠ cfg.Threshold) :
    inThresholdRange c cfg = false := by
  have h : inThresholdRange c cfg = true → False := by
    intro hb
    rw [uintMod_eq] at ht hc
    simp only [inThresholdRange, usub, uadd, Bool.and_eq_true, decide_eq_true_eq,
      uintMod_eq] at hb
    omega
  cases hI : inThresholdRange c cfg with
  | false => rfl
  | true => exact (h hI).elim

/-- C1: when the battery capacity is read successfully and equals
prevCapacity, the cycle is skipped for any threshold and any charging
value: no conservation-mode write is performed and the loop state,
including the ticker interval, is unchanged. -/
theorem c1_skip_when_capacity_unchanged (cfg : config) (s : PollState) (c : Nat)
    (chV chE : Bool) (h : c = s.prevCapacity) :
    pollTick cfg s (some c) chV chE =
      { write := none, state := s, skipped := true,
        loggedReadError := false, loggedChargingError := false } := by
  simp [pollTick, h]

/-- Witness for C1 at capacity 50 = prevCapacity 50, threshold 80,
charging true. -/
theorem c1_skip_when_capacity_unchanged_witness :
    pollTick { Threshold := 80 } { prevCapacity := 50, interval := minute }
      (some 50) true false =
      { write := none,
        state := { prevCapacity := 50, interval := minute }, skipped := true,
        loggedReadError := false, loggedChargingError := false } :=
  c1_skip_when_capacity_unchanged { Threshold := 80 }
    { prevCapacity := 50, interval := minute } 50 true false rfl

/-- C2 counterexample: with threshold 0, capacity 0 (equal to the
threshold), charging true, on a non-skipped tick (prevCapacity 50), the
code writes "1" but sets the next interval to 5 minutes, not 1 second:
the unsigned wraparound in Threshold-1 makes the range check false. -/
theorem c2_counterexample :
    (0 : Nat) ≠ (50 : Nat) ∧
    (pollTick { Threshold := 0 } { prevCapacity := 50, interval := minute }
      (some 0) true false).write = some true ∧
    (pollTick { Threshold := 0 } { prevCapacity := 50, interval := minute }
      (some 0) true false).state.interval = 5 * minute ∧
    (pollTick { Threshold := 0 } { prevCapacity := 50, interval := minute }
      (some 0) true false).state.interval ≠ second := by
  refine ⟨by decide, ?_, ?_, by decide⟩ <;> rfl

/-- C2 (amended): for every non-skipped poll tick with capacity equal to
the threshold, charging true, and 1 <= threshold <= 2^64 - 2 (away from
the uint wraparound points), the decision enables conservation mode
(writes "1") and sets the next poll interval to 1 second. -/
theorem c2_enable_fast_poll_at_threshold (cfg : config) (c prev iv : Nat)
    (chE : Bool) (h1 : 1 ≤ cfg.Threshold) (h2 : cfg.Threshold ≤ uintMod - 2)
    (heq : c = cfg.Threshold) (hne : c ≠ prev) :
    pollTick cfg { prevCapacity := prev, interval := iv } (some c) true chE =
      { write := some true,
        state := { prevCapacity := c, interval := second }, skipped := false,
        loggedReadError := false, loggedChargingError := chE } ∧
    setConservationMode true = "1" := by
  have hc : c < uintMod := by rw [uintMod_eq] at h2 ⊢; omega
  have hin : inThresholdRange c cfg = true :=
    (inThresholdRange_iff cfg c h1 h2 hc).mpr heq
  exact ⟨by simp [pollTick, hne, hin], rfl⟩

/-- Witness for C2 (amended) at threshold 80, capacity 80,
prevCapacity 0. -/
theorem c2_enable_fast_poll_at_threshold_witness :
    pollTick { Threshold := 80 } { prevCapacity := 0, interval := minute }
      (some 80) true false =
      { write := some true,
        state := { prevCapacity := 80, interval := second }, skipped := false,
        loggedReadError := false, loggedChargingError := false } ∧
    setConservationMode true = "1" :=
  c2_enable_fast_poll_at_threshold { Threshold := 80 } 80 0 minute false
    (by decide) (by decide) rfl (by decide)

/-- C3 counterexample: a poll tick with charging false but capacity 50
equal to prevCapacity 50 is skipped: no "0" is written and the interval
is not set to 5 minutes, so the claim fails without the non-skipped
qualifier. -/
theorem c3_counterexample :
    (pollTick { Threshold := 80 } { prevCapacity := 50, interval := minute }
      (some 50) false false).write = none ∧
    (pollTick { Threshold := 80 } { prevCapacity := 50, interval := minute }
      (some 50) false false).write ≠ some false ∧
    (pollTick { Threshold := 80 } { prevCapacity := 50, interval := minute }
      (some 50) false false).state.interval = minute ∧
    (pollTick { Threshold := 80 } { prevCapacity := 50, interval := minute }
      (some 50) false false).state.interval ≠ 5 * minute := by
  refine ⟨rfl, by decide, rfl, by decide⟩

/-- C3 (amended): for every non-skipped poll tick with charging false,
for any capacity and any threshold, the decision disables conservation
mode (writes "0") and sets the next poll interval to 5 minutes. -/
theorem c3_disable_when_not_charging (cfg : config) (c prev iv : Nat)
    (chE : Bool) (hne : c ≠ prev) :
    pollTick cfg { prevCapacity := prev, interval := iv } (some c) false chE =
      { write := some false,
        state := { prevCapacity := c, interval := 5 * minute }, skipped := false,
        loggedReadError := false, loggedChargingError := chE } ∧
    setConservationMode false = "0" :=
  ⟨by simp [pollTick, hne], rfl⟩

/-- Witness for C3 (amended) at threshold 80, capacity 60,
prevCapacity 59, charging false. -/
theorem c3_disable_when_not_charging_witness :
    pollTick { Threshold := 80 } { prevCapacity := 59, interval := minute }
      (some 60) false false =
      { write := some false,
        state := { prevCapacity := 60, interval := 5 * minute }, skipped := false,
        loggedReadError := false, loggedChargingError := false } ∧
    setConservationMode false = "0" :=
  c3_disable_when_not_charging { Threshold := 80 } 60 59 minute false (by decide)

/-- C4: for every non-skipped poll tick with charging true and a uint
capacity different from the uint threshold, the decision enables
conservation mode (writes "1") and sets the next poll interval to
5 minutes. -/
theorem c4_enable_slow_poll_off_threshold (cfg : config) (c prev iv : Nat)
    (chE : Bool) (ht : cfg.Threshold < uintMod) (hc : c < uintMod)
    (hne : c ≠ cfg.Threshold) (hskip : c ≠ prev) :
    pollTick cfg { prevCapacity := prev, interval := iv } (some c) true chE =
      { write := some true,
        state := { prevCapacity := c, interval := 5 * minute }, skipped := false,
        loggedReadError := false, loggedChargingError := chE } ∧
    setConservationMode true = "1" := by
  have hin : inThresholdRange c cfg = false :=
    inThresholdRange_false_of_ne cfg c ht hc hne
  exact ⟨by simp [pollTick, hskip, hin], rfl⟩

/-- Witness for C4 at threshold 80, capacity 50, prevCapacity 0,
charging true. -/
theorem c4_enable_slow_poll_off_threshold_witness :
    pollTick { Threshold := 80 } { prevCapacity := 0, interval := minute }
      (some 50) true false =
      { write := some true,
        state := { prevCapacity := 50, interval := 5 * minute }, skipped := false,
        loggedReadError := false, loggedChargingError := false } ∧
    setConservationMode true = "1" :=
  c4_enable_slow_poll_off_threshold { Threshold := 80 } 50 0 minute false
    (by decide) (by decide) (by decide) (by decide)

/-- C5 counterexample: at the uint wraparound point threshold =
2^64 - 1 >= 1, a capacity equal to the threshold is not in range,
because Threshold+1 wraps to 0; the claimed equivalence with
capacity == threshold fails there. -/
theorem c5_counterexample :
    1 ≤ uintMod - 1 ∧
    inThresholdRange (uintMod - 1) { Threshold := uintMod - 1 } = false := by
  constructor
  · rw [uintMod_eq]; omega
  · have h : inThresholdRange (uintMod - 1) { Threshold := uintMod - 1 } = true → False := by
      intro hb
      simp only [inThresholdRange, usub, uadd, Bool.and_eq_true, decide_eq_true_eq,
        uintMod_eq] at hb
      omega
    cases hI : inThresholdRange (uintMod - 1) { Threshold := uintMod - 1 } with
    | false => rfl
    | true => exact (h hI).elim

/-- C5 (amended): for every threshold with 1 <= threshold <= 2^64 - 2
and every uint capacity, inThresholdRange returns true iff capacity
equals the threshold: away from the wraparound points the open band
collapses to a single-point exact match. -/
theorem c5_exact_match (cfg : config) (c : Nat) (h1 : 1 ≤ cfg.Threshold)
    (h2 : cfg.Threshold ≤ uintMod - 2) (hc : c < uintMod) :
    inThresholdRange c cfg = true ↔ c = cfg.Threshold :=
  inThresholdRange_iff cfg c h1 h2 hc

/-- Witness for C5 (amended) at threshold 80, capacity 80. -/
theorem c5_exact_match_witness :
    inThresholdRange 80 { Threshold := 80 } = true ↔ (80 : Nat) = 80 :=
  c5_exact_match { Threshold := 80 } 80 (by decide) (by decide) (by decide)

/-- C6: with threshold 0, Threshold-1 wraps modulo 2^64 to the maximum
uint value, so for every capacity in 0..100 the first comparison is
false and inThresholdRange returns false; the function is total, so no
panic occurs. -/
theorem c6_threshold_zero_no_underflow (c : Nat) (hc : c ≤ 100) :
    usub 0 1 = uintMod - 1 ∧
    inThresholdRange c { Threshold := 0 } = false := by
  have h0 : usub 0 1 = uintMod - 1 := by
    simp only [usub, uintMod_eq]
  refine ⟨h0, ?_⟩
  have h : inThresholdRange c { Threshold := 0 } = true → False := by
    intro hb
    simp only [inThresholdRange, usub, uadd, Bool.and_eq_true, decide_eq_true_eq,
      uintMod_eq] at hb
    omega
  cases hI : inThresholdRange c { Threshold := 0 } with
  | false => rfl
  | true => exact (h hI).elim

/-- Witness for C6 at capacity 42. -/
theorem c6_threshold_zero_no_underflow_witness :
    usub 0 1 = uintMod - 1 ∧
    inThresholdRange 42 { Threshold := 0 } = false :=
  c6_threshold_zero_no_underflow 42 (by decide)

/-- C7: on a tick whose capacity read fails, the error is logged and the
cycle is aborted: no conservation-mode write occurs, prevCapacity and
the ticker interval are unchanged, and the loop continues with the
remaining scheduled ticks from the same state. -/
theorem c7_read_error_aborts_cycle (cfg : config) (s : PollState)
    (chV chE : Bool) (rest : List LoopInput) :
    pollTick cfg s none chV chE =
      { write := none, state := s, skipped := false,
        loggedReadError := true, loggedChargingError := false } ∧
    daemonLoop cfg s (LoopInput.timer none chV chE :: rest) =
      Event.readErrorLog :: daemonLoop cfg s rest :=
  ⟨rfl, rfl⟩

/-- C8: observed behaviour of the hot-reload callback. On a watch-level
error the old config is kept, matching the claim. But when re-reading
the config file fails (k.Load errors), the always-true error handler
discards the error, the fresh koanf store stays empty, and the config
is replaced by the zero-valued config with Threshold = 0; and when the
loaded store fails to unmarshal, logCfgIssue calls log.Fatalf and the
process exits. Both paths contradict the claim that the daemon keeps
the last-known-good config. -/
theorem c8_reload_divergence :
    reloadCallback { Threshold := 80 } true LoadResult.errOther =
      ReloadOutcome.kept { Threshold := 80 } ∧
    reloadCallback { Threshold := 80 } false LoadResult.errOther =
      ReloadOutcome.replaced (some { Threshold := 0 }) ∧
    reloadCallback { Threshold := 80 } false (LoadResult.ok Store.typeMismatch) =
      ReloadOutcome.exited :=
  ⟨rfl, rfl, rfl⟩

/-- Events emitted during a timer tick never include the shutdown log or
the ticker stop. -/
lemma tickEvents_no_shutdown (r : TickResult) :
    Event.shutdownLog ∉ tickEvents r ∧ Event.tickerStop ∉ tickEvents r := by
  cases hR : r.loggedReadError <;> cases hC : r.loggedChargingError <;>
    cases hW : r.write <;> simp [tickEvents, hR, hC, hW]

/-- Running the loop on signal-free inputs followed by a signal yields
the tick events and then exactly the shutdown log followed by the
ticker stop. -/
lemma daemonLoop_sig_end (cfg : config) (inputs : List LoopInput) :
    ∀ s : PollState, (∀ i ∈ inputs, i ≠ LoopInput.sig) →
      ∃ pre, daemonLoop cfg s (inputs ++ [LoopInput.sig]) =
          pre ++ [Event.shutdownLog, Event.tickerStop] ∧
        Event.shutdownLog ∉ pre ∧ Event.tickerStop ∉ pre := by
  induction inputs with
  | nil =>
    intro s _
    exact ⟨[], by simp [daemonLoop], by simp, by simp⟩
  | cons i rest ih =>
    intro s h
    cases i with
    | sig => exact ((h _ (List.mem_cons_self _ _)) rfl).elim
    | timer cap chV chE =>
      obtain ⟨pre, hpre, h1, h2⟩ :=
        ih (pollTick cfg s cap chV chE).state
          (fun j hj => h j (List.mem_cons_of_mem _ hj))
      refine ⟨tickEvents (pollTick cfg s cap chV chE) ++ pre, ?_, ?_, ?_⟩
      · simp [daemonLoop, hpre]
      · intro hm
        rcases List.mem_append.mp hm with hm | hm
        · exact (tickEvents_no_shutdown _).1 hm
        · exact h1 hm
      · intro hm
        rcases List.mem_append.mp hm with hm | hm
        · exact (tickEvents_no_shutdown _).2 hm
        · exact h2 hm

/-- C9 (amended): on the signal-receipt exit path, runDaemon performs
exactly one ticker stop and one final shutdown log line, both at the
very end and in the order shutdown-log-then-stop (deferred calls run
last-registered-first); on the config-watch registration failure path,
runDaemon returns before the ticker or the deferred cleanup exist, so
it emits only the watch error log, with no ticker stop and no shutdown
log line. -/
theorem c9_shutdown_paths (cfg : config) (inputs : List LoopInput)
    (h : ∀ i ∈ inputs, i ≠ LoopInput.sig) :
    (∃ pre, runDaemonEvents false cfg (inputs ++ [LoopInput.sig]) =
        pre ++ [Event.shutdownLog, Event.tickerStop] ∧
      Event.shutdownLog ∉ pre ∧ Event.tickerStop ∉ pre) ∧
    runDaemonEvents true cfg (inputs ++ [LoopInput.sig]) =
      [Event.watchErrorLog] := by
  constructor
  · obtain ⟨pre, hpre, h1, h2⟩ :=
      daemonLoop_sig_end cfg inputs { prevCapacity := 0, interval := minute } h
    refine ⟨Event.enableLog :: pre, ?_, ?_, ?_⟩
    · simp [runDaemonEvents, hpre]
    · simp [List.mem_cons, h1]
    · simp [List.mem_cons, h2]
  · simp [runDaemonEvents]

/-- Witness for C9 (amended) at threshold 80 with one ordinary tick
before the signal. -/
theorem c9_shutdown_paths_witness :
    (∃ pre, runDaemonEvents false { Threshold := 80 }
        ([LoopInput.timer (some 50) true false] ++ [LoopInput.sig]) =
        pre ++ [Event.shutdownLog, Event.tickerStop] ∧
      Event.shutdownLog ∉ pre ∧ Event.tickerStop ∉ pre) ∧
    runDaemonEvents true { Threshold := 80 }
      ([LoopInput.timer (some 50) true false] ++ [LoopInput.sig]) =
      [Event.watchErrorLog] :=
  c9_shutdown_paths { Threshold := 80 }
    [LoopInput.timer (some 50) true false] (by decide)

/-- C9 counterexample: when registering the config watch fails,
runDaemon returns having emitted only the watch error log: neither the
ticker stop nor the shutdown log line executes on that exit path, even
though a signal is pending, refuting the claim that both are guaranteed
on every exit path. -/
theorem c9_counterexample :
    runDaemonEvents true { Threshold := 80 } [LoopInput.sig] =
      [Event.watchErrorLog] ∧
    Event.shutdownLog ∉ runDaemonEvents true { Threshold := 80 } [LoopInput.sig] ∧
    Event.tickerStop ∉ runDaemonEvents true { Threshold := 80 } [LoopInput.sig] := by
  refine ⟨rfl, by decide, by decide⟩

/-- C10: whenever startup parsing does not invoke the fatal logger
(log.Fatalf, which terminates the process before runDaemon is reached),
parseConfig returns a non-nil config pointer: every nil-returning
branch of parseConfig and handleConfigError first calls logCfgIssue. -/
theorem c10_startup_config_nonnil (loadRes : LoadResult)
    (mkdirOk marshalOk writeOk : Bool)
    (h : (parseConfigStartup loadRes mkdirOk marshalOk writeOk).fatalLogged = false) :
    ∃ c, (parseConfigStartup loadRes mkdirOk marshalOk writeOk).ret = some c := by
  cases loadRes with
  | ok st => cases st <;> simp [parseConfigStartup, unmarshalStore] at h ⊢
  | errOther => simp [parseConfigStartup] at h
  | errNotExist =>
    cases mkdirOk <;> cases marshalOk <;> cases writeOk <;>
      simp [parseConfigStartup, unmarshalStore] at h ⊢

/-- Witness for C10 at a successful load of a file with threshold 80. -/
theorem c10_startup_config_nonnil_witness :
    ∃ c, (parseConfigStartup (LoadResult.ok (Store.fromFile 80))
      true true true).ret = some c :=
  c10_startup_config_nonnil (LoadResult.ok (Store.fromFile 80)) true true true rfl

end Batheart
